import Mathlib

/-!
Shallow embedding of the Conference Presentation System's core logic
(`src/app.py`, `src/backup.py`): the in-memory presentation state, the
MQTT message handlers, the deadline-based timer, the backup failover
monitor, and the WebSocket broadcast loop.  Time is modelled as `Int`
(Python wall-clock seconds); JSON dict payloads are modelled per topic
as structures of `Option` fields, a `none` field standing for an absent
key.  Only the keys the handlers actually inspect are modelled.
-/

namespace ConfSys

/-- Device status strings used in `STATE["device_status"]`. -/
inductive Status where
  | ONLINE
  | OFFLINE
  | UNKNOWN
deriving DecidableEq, Repr

/-- `STATE["system_health"]` record (cpu, memory, disk, network). -/
structure SysHealth where
  cpu : Int
  memory : Int
  disk : Int
  network : String
deriving DecidableEq, Repr

/-- The main process's global `STATE` dict from `src/app.py`.
`timer_end_time` is `None` or a wall-clock instant. -/
structure AppState where
  current_presenter : String
  current_topic : String
  timer_seconds : Int
  timer_running : Bool
  timer_end_time : Option Int
  announcement : String
  announcement_visible : Bool
  current_slide : Int
  total_slides : Int
  device_status_main : Status
  device_status_backup : Status
  device_status_moderator : Status
  system_health : SysHealth
  connected_clients : Nat
deriving DecidableEq, Repr

/-- Initial `STATE` of `src/app.py`. -/
def appInitState : AppState :=
  { current_presenter := "No presenter"
    current_topic := "Welcome to the Conference"
    timer_seconds := 600
    timer_running := false
    timer_end_time := none
    announcement := ""
    announcement_visible := false
    current_slide := 1
    total_slides := 30
    device_status_main := Status.ONLINE
    device_status_backup := Status.UNKNOWN
    device_status_moderator := Status.UNKNOWN
    system_health := ⟨0, 0, 0, "OK"⟩
    connected_clients := 0 }

/-- An inbound MQTT message, decoded per the topic it arrived on.
Fields are the payload keys the handlers read; `none` = key absent.
`other` stands for a message on none of the handled topics. -/
inductive Msg where
  | timer (seconds : Option Int) (running : Option Bool)
  | presenter (name : Option String) (topic : Option String)
  | announcement (message : Option String)
  | heartbeat (role : Option String)
  | control (command : Option String) (slide : Option Int)
  | other
deriving DecidableEq, Repr

/-- Whether a message arrived on the `control/` topic. -/
def Msg.isControl : Msg → Bool
  | .control _ _ => true
  | _ => false

/-- `PowerPointController.next_slide` (identical in `app.py` and
`backup.py`): acting on `(connected, total_slides, current_slide)`,
returns `(success, new current_slide)`. -/
def ppNextSlide (connected : Bool) (total cur : Int) : Bool × Int :=
  if !connected then (false, cur)
  else
    let c := cur + 1
    let c := if c > total then total else c
    (true, c)

/-- `PowerPointController.previous_slide` (the `total` bound is unused
by the source, which clamps only at 1). -/
def ppPrevSlide (connected : Bool) (_total cur : Int) : Bool × Int :=
  if !connected then (false, cur)
  else
    let c := cur - 1
    let c := if c < 1 then 1 else c
    (true, c)

/-- `PowerPointController.goto_slide`: rejects slide numbers outside
`[1, total_slides]`, otherwise jumps to the requested slide. -/
def ppGotoSlide (connected : Bool) (total cur n : Int) : Bool × Int :=
  if !connected then (false, cur)
  else if 1 ≤ n ∧ n ≤ total then (true, n)
  else (false, cur)

/-- `on_mqtt_message` of `src/app.py` (state transformation only; the
trailing WebSocket broadcast is modelled separately).  `ppt` is
`powerpoint.connected`; `now` is `time.time()` at receipt. -/
def handleMainMsg (ppt : Bool) (now : Int) (m : Msg) (s : AppState) : AppState :=
  match m with
  | .timer seconds running =>
      let s1 := match seconds with
        | some v => { s with timer_seconds := v }
        | none => s
      match running with
      | some r =>
          if r then { s1 with timer_running := r, timer_end_time := some (now + s1.timer_seconds) }
          else { s1 with timer_running := r, timer_end_time := none }
      | none => s1
  | .presenter name topic =>
      let s1 := match name with
        | some v => { s with current_presenter := v }
        | none => s
      match topic with
      | some v => { s1 with current_topic := v }
      | none => s1
  | .announcement message =>
      match message with
      | some v => { s with announcement := v, announcement_visible := true }
      | none => s
  | .heartbeat role =>
      if role = some "BACKUP" then { s with device_status_backup := Status.ONLINE }
      else if role = some "MODERATOR" then { s with device_status_moderator := Status.ONLINE }
      else s
  | .control command slide =>
      match command with
      | some c =>
          if c = "next_slide" then
            { s with current_slide := (ppNextSlide ppt s.total_slides s.current_slide).2 }
          else if c = "previous_slide" then
            { s with current_slide := (ppPrevSlide ppt s.total_slides s.current_slide).2 }
          else if c = "goto_slide" then
            match slide with
            | some n => { s with current_slide := (ppGotoSlide ppt s.total_slides s.current_slide n).2 }
            | none => s
          else s
      | none => s
  | .other => s

/-- `MainWindow.start_timer`: set `running`, `deadline = now + duration`. -/
def startTimer (now : Int) (s : AppState) : AppState :=
  { s with timer_running := true, timer_end_time := some (now + s.timer_seconds) }

/-- `MainWindow.stop_timer`: clears the running flag and the deadline
(and publishes `{"running": false}`; publication not modelled). -/
def stopTimer (s : AppState) : AppState :=
  { s with timer_running := false, timer_end_time := none }

/-- `MainWindow.reset_timer`. -/
def resetTimer (s : AppState) : AppState :=
  { s with timer_seconds := 600, timer_running := false, timer_end_time := none }

/-- The timer portion of `MainWindow.update_ui`: while the timer is
running with a truthy (non-`None`, non-zero) end time, write
`max 0 (end - now)` back into `timer_seconds`. -/
def updateUiTimer (now : Int) (s : AppState) : AppState :=
  match s.timer_end_time with
  | some e => if s.timer_running ∧ e ≠ 0 then { s with timer_seconds := max 0 (e - now) } else s
  | none => s

/-- The remaining-time value the UI displays after an `update_ui` tick
at instant `now`. -/
def remainingDisplay (now : Int) (s : AppState) : Int :=
  (updateUiTimer now s).timer_seconds

/-- The backup process's global `STATE` from `src/backup.py`, together
with the two pieces of mutable process state its handlers touch:
`CONFIG["is_active"]` and `powerpoint.connected`. -/
structure BackupState where
  current_presenter : String
  current_topic : String
  timer_seconds : Int
  timer_running : Bool
  timer_end_time : Option Int
  announcement : String
  announcement_visible : Bool
  current_slide : Int
  total_slides : Int
  device_status_main : Status
  device_status_backup : Status
  device_status_moderator : Status
  system_health : SysHealth
  main_last_heartbeat : Int
  connected_clients : Nat
  is_active : Bool
  ppt_connected : Bool
deriving DecidableEq, Repr

/-- Initial backup `STATE` (`main_last_heartbeat` is `time.time()` at
process start, here a parameter `t0`); `CONFIG["is_active"] = False`
and PowerPoint is not connected until activation. -/
def backupInitState (t0 : Int) : BackupState :=
  { current_presenter := "No presenter"
    current_topic := "Welcome to the Conference"
    timer_seconds := 600
    timer_running := false
    timer_end_time := none
    announcement := ""
    announcement_visible := false
    current_slide := 1
    total_slides := 30
    device_status_main := Status.ONLINE
    device_status_backup := Status.ONLINE
    device_status_moderator := Status.UNKNOWN
    system_health := ⟨0, 0, 0, "OK"⟩
    main_last_heartbeat := t0
    connected_clients := 0
    is_active := false
    ppt_connected := false }

/-- `CONFIG["failover_timeout"]` of `src/backup.py`. -/
def failoverTimeout : Int := 15

/-- `on_mqtt_message` of `src/backup.py`.  Differences from the main
process's handler: a `role=MAIN` heartbeat refreshes
`main_last_heartbeat` and marks main ONLINE, and the `control/` branch
is guarded by `CONFIG["is_active"]`. -/
def handleBackupMsg (now : Int) (m : Msg) (s : BackupState) : BackupState :=
  match m with
  | .timer seconds running =>
      let s1 := match seconds with
        | some v => { s with timer_seconds := v }
        | none => s
      match running with
      | some r =>
          if r then { s1 with timer_running := r, timer_end_time := some (now + s1.timer_seconds) }
          else { s1 with timer_running := r, timer_end_time := none }
      | none => s1
  | .presenter name topic =>
      let s1 := match name with
        | some v => { s with current_presenter := v }
        | none => s
      match topic with
      | some v => { s1 with current_topic := v }
      | none => s1
  | .announcement message =>
      match message with
      | some v => { s with announcement := v, announcement_visible := true }
      | none => s
  | .heartbeat role =>
      if role = some "MAIN" then
        { s with main_last_heartbeat := now, device_status_main := Status.ONLINE }
      else if role = some "MODERATOR" then { s with device_status_moderator := Status.ONLINE }
      else s
  | .control command slide =>
      match command with
      | some c =>
          if s.is_active then
            if c = "next_slide" then
              { s with current_slide := (ppNextSlide s.ppt_connected s.total_slides s.current_slide).2 }
            else if c = "previous_slide" then
              { s with current_slide := (ppPrevSlide s.ppt_connected s.total_slides s.current_slide).2 }
            else if c = "goto_slide" then
              match slide with
              | some n => { s with current_slide := (ppGotoSlide s.ppt_connected s.total_slides s.current_slide n).2 }
              | none => s
            else s
          else s
      | none => s
  | .other => s

/-- A message published on the `control/failover` topic (its
`action` field). -/
inductive FailoverAction where
  | takeover
  | standby
deriving DecidableEq, Repr

/-- `BackupWindow.activate_backup`: set `CONFIG["is_active"] = True`,
publish `failover {action=TAKEOVER}`, and connect PowerPoint if not yet
connected (`CONFIG["powerpoint_enabled"]` is `True` and the simulated
`connect()` always succeeds). -/
def activateBackup (s : BackupState) : BackupState :=
  { s with is_active := true,
           ppt_connected := if s.ppt_connected then s.ppt_connected else true }

/-- `BackupWindow.deactivate_backup`: set `CONFIG["is_active"] = False`
and publish `failover {action=STANDBY}`. -/
def deactivateBackup (s : BackupState) : BackupState :=
  { s with is_active := false }

/-- What the main process's `/api/state` endpoint returned on a
reconciliation pull, restricted to the eight keys the sync loop of
`MainMonitor.run` copies; a `none` field models a key absent from the
fetched JSON object. -/
structure FetchedState where
  current_presenter : Option String
  current_topic : Option String
  timer_seconds : Option Int
  timer_running : Option Bool
  announcement : Option String
  announcement_visible : Option Bool
  current_slide : Option Int
  total_slides : Option Int
deriving DecidableEq, Repr

/-- The sync loop of `MainMonitor.run` (lines 504-509 of
`src/backup.py`): `for key in [...]: if key in main_state:
STATE[key] = main_state[key]`. -/
def syncFromMain (f : FetchedState) (s : BackupState) : BackupState :=
  { s with
    current_presenter := f.current_presenter.getD s.current_presenter
    current_topic := f.current_topic.getD s.current_topic
    timer_seconds := f.timer_seconds.getD s.timer_seconds
    timer_running := f.timer_running.getD s.timer_running
    announcement := f.announcement.getD s.announcement
    announcement_visible := f.announcement_visible.getD s.announcement_visible
    current_slide := f.current_slide.getD s.current_slide
    total_slides := f.total_slides.getD s.total_slides }

/-- One iteration of `MainMonitor.run` after the heartbeat publication
(lines 485-512 of `src/backup.py`): the liveness check — on heartbeat
silence longer than `failover_timeout`, fire failover when in STANDBY
(the emitted `failover_signal` runs `activate_backup`) and mark main
OFFLINE, otherwise mark main ONLINE — followed by the reconciliation
pull, attempted only when main is ONLINE and the backup is not active.
`fetch` is the pull's outcome: `none` models an HTTP failure (silently
ignored), `some f` a decoded 200 response.  Returns the new state and
the `failover`-topic messages published during the iteration. -/
def monitorCheckP (now : Int) (fetch : Option FetchedState) (s : BackupState) :
    BackupState × List FailoverAction :=
  let timeSince := now - s.main_last_heartbeat
  let step1 :=
    if timeSince > failoverTimeout then
      let fired :=
        if !s.is_active then (activateBackup s, [FailoverAction.takeover])
        else (s, [])
      ({ fired.1 with device_status_main := Status.OFFLINE }, fired.2)
    else
      ({ s with device_status_main := Status.ONLINE }, [])
  let s1 := step1.1
  let s2 :=
    if s1.device_status_main = Status.ONLINE ∧ s1.is_active = false then
      match fetch with
      | some f => syncFromMain f s1
      | none => s1
    else s1
  (s2, step1.2)

/-- The operations that can touch the backup process's state: an
inbound MQTT message, one monitor iteration, and the two manual
operator actions. -/
inductive BackupOp where
  | mqtt (now : Int) (m : Msg)
  | monitorCheck (now : Int) (fetch : Option FetchedState)
  | activate
  | deactivate
deriving DecidableEq, Repr

/-- Dispatch of a backup operation to its state transformation. -/
def backupStep : BackupOp → BackupState → BackupState
  | .mqtt now m, s => handleBackupMsg now m s
  | .monitorCheck now fetch, s => (monitorCheckP now fetch s).1
  | .activate, s => activateBackup s
  | .deactivate, s => deactivateBackup s

/-- A connected WebSocket viewer session: an identifier plus whether
`send_text` to it raises. -/
structure Session where
  sid : Nat
  failsSend : Bool
deriving DecidableEq, Repr

/-- The `for websocket in websocket_connections` loop of
`broadcast_state_update` in `src/app.py`, with Python's index-based
list-iterator semantics: the loop keeps an index into the *current*
list, and on a send failure the session is removed in place
(`list.remove`, first occurrence), shifting later elements left under
the iterator.  Arguments: current index, current connection list,
sessions successfully sent so far.  Returns the final connection list
and the sessions that received the message. -/
def broadcastLoop (i : Nat) (conns : List Session) (sent : List Session) :
    List Session × List Session :=
  if h : i < conns.length then
    let ws := conns.get ⟨i, h⟩
    if ws.failsSend then
      broadcastLoop (i + 1) (conns.erase ws) sent
    else
      broadcastLoop (i + 1) conns (sent ++ [ws])
  else (conns, sent)
termination_by conns.length - i
decreasing_by
  · have hmem : conns.get ⟨i, h⟩ ∈ conns := conns.get_mem _ _
    have hlen : (conns.erase (conns.get ⟨i, h⟩)).length = conns.length - 1 :=
      List.length_erase_of_mem hmem
    omega
  · omega

/-- `broadcast_state_update` of `src/app.py` (the empty-list early
return sends to nobody, as does the loop). -/
def broadcastStateUpdate (conns : List Session) : List Session × List Session :=
  broadcastLoop 0 conns []

/-- A main-process state with a running timer whose deadline (100) has
already passed at observation time 700. -/
def c3State : AppState :=
  { appInitState with timer_running := true, timer_end_time := some 100 }

/-- A viewer session whose sends succeed. -/
def sessA : Session := ⟨1, false⟩

/-- A viewer session whose `send_text` raises. -/
def sessB : Session := ⟨2, true⟩

/-- A third viewer session whose sends succeed. -/
def sessC : Session := ⟨3, false⟩

/-- A `control`-topic message carrying the `next_slide` command. -/
def c7Msg : Msg := Msg.control (some "next_slide") none

/-- A fetched main snapshot where some of the eight synced keys are
present and the rest absent. -/
def c9Fetch : FetchedState :=
  { current_presenter := none
    current_topic := some "Deep Learning"
    timer_seconds := some 300
    timer_running := none
    announcement := none
    announcement_visible := none
    current_slide := some 5
    total_slides := none }

/-! ## Helper lemmas -/

/-- No MQTT message handled by the backup ever changes
`CONFIG["is_active"]`: the handler writes only `STATE` fields. -/
theorem handleBackupMsg_is_active (now : Int) (m : Msg) (s : BackupState) :
    (handleBackupMsg now m s).is_active = s.is_active := by
  cases m with
  | timer seconds running =>
      cases seconds <;> cases running <;> try rfl
      all_goals (rename_i r; cases r <;> rfl)
  | presenter name topic =>
      cases name <;> cases topic <;> rfl
  | announcement message => cases message <;> rfl
  | heartbeat role =>
      by_cases hb : role = some "MAIN"
      · simp [handleBackupMsg, hb]
      · by_cases hm : role = some "MODERATOR"
        · simp [handleBackupMsg, hb, hm]
        · simp [handleBackupMsg, hb, hm]
  | control command slide =>
      cases command with
      | none => rfl
      | some c =>
          cases slide <;>
            (simp only [handleBackupMsg]; repeat' split) <;> rfl
  | other => rfl

/-- Monitor iteration, heartbeat stale and backup in STANDBY: the
backup activates (publishing TAKEOVER), main is marked OFFLINE, and the
reconciliation pull is skipped. -/
theorem monitorCheckP_timeout_standby (now : Int) (f : Option FetchedState) (s : BackupState)
    (ht : now - s.main_last_heartbeat > failoverTimeout) (ha : s.is_active = false) :
    monitorCheckP now f s =
      ({ activateBackup s with device_status_main := Status.OFFLINE },
        [FailoverAction.takeover]) := by
  simp [monitorCheckP, ht, ha, activateBackup]

/-- Monitor iteration, heartbeat stale and backup already ACTIVE: only
`device_status["main"]` changes, and nothing is published. -/
theorem monitorCheckP_timeout_active (now : Int) (f : Option FetchedState) (s : BackupState)
    (ht : now - s.main_last_heartbeat > failoverTimeout) (ha : s.is_active = true) :
    monitorCheckP now f s = ({ s with device_status_main := Status.OFFLINE }, []) := by
  simp [monitorCheckP, ht, ha]

/-- Monitor iteration with a fresh heartbeat publishes nothing. -/
theorem monitorCheckP_fresh_pubs (now : Int) (f : Option FetchedState) (s : BackupState)
    (ht : ¬(now - s.main_last_heartbeat > failoverTimeout)) :
    (monitorCheckP now f s).2 = [] := by
  simp [monitorCheckP, ht]

/-- Monitor iteration with a fresh heartbeat leaves the role as it
was (the reconciliation pull never touches `is_active`). -/
theorem monitorCheckP_fresh_active (now : Int) (f : Option FetchedState) (s : BackupState)
    (ht : ¬(now - s.main_last_heartbeat > failoverTimeout)) :
    (monitorCheckP now f s).1.is_active = s.is_active := by
  simp only [monitorCheckP, if_neg ht]
  split
  · cases f <;> rfl
  · rfl

/-- Once the backup is ACTIVE, a monitor iteration keeps it ACTIVE. -/
theorem monitorCheckP_active_stays (now : Int) (f : Option FetchedState) (s : BackupState)
    (h : s.is_active = true) : (monitorCheckP now f s).1.is_active = true := by
  by_cases ht : now - s.main_last_heartbeat > failoverTimeout
  · rw [monitorCheckP_timeout_active now f s ht h]; exact h
  · rw [monitorCheckP_fresh_active now f s ht]; exact h

/-! ## Claim theorems -/

/-- Claim C1: on each periodic liveness check with
`failover_timeout = 15`, the backup transitions STANDBY→ACTIVE iff
`now - last_main_heartbeat > 15` while in STANDBY, publishing a
`failover TAKEOVER` message exactly on that transition; if the timeout
has elapsed while already ACTIVE the check only marks
`device_status["main"]` OFFLINE without changing role or publishing;
and once the transition has fired, every later check (any later instant
and pull outcome) publishes no further TAKEOVER and stays ACTIVE, so
the transition fires exactly once per timeout episode. -/
theorem failover_trigger_spec (s : BackupState) (now now2 : Int)
    (fetch fetch2 : Option FetchedState) :
    failoverTimeout = 15 ∧
    (((monitorCheckP now fetch s).1.is_active = true ∧ s.is_active = false) ↔
        (now - s.main_last_heartbeat > failoverTimeout ∧ s.is_active = false)) ∧
    (now - s.main_last_heartbeat > failoverTimeout ∧ s.is_active = false →
        (monitorCheckP now fetch s).2 = [FailoverAction.takeover]) ∧
    (now - s.main_last_heartbeat > failoverTimeout ∧ s.is_active = true →
        (monitorCheckP now fetch s).1 = { s with device_status_main := Status.OFFLINE } ∧
        (monitorCheckP now fetch s).2 = []) ∧
    (¬(now - s.main_last_heartbeat > failoverTimeout ∧ s.is_active = false) →
        (monitorCheckP now fetch s).2 = []) ∧
    (s.is_active = false ∧ (monitorCheckP now fetch s).1.is_active = true →
        (monitorCheckP now2 fetch2 (monitorCheckP now fetch s).1).2 = [] ∧
        (monitorCheckP now2 fetch2 (monitorCheckP now fetch s).1).1.is_active = true) := by
  refine ⟨rfl, ?_, ?_, ?_, ?_, ?_⟩
  · constructor
    · rintro ⟨hres, ha⟩
      refine ⟨?_, ha⟩
      by_contra ht
      rw [monitorCheckP_fresh_active now fetch s ht] at hres
      rw [ha] at hres
      exact Bool.false_ne_true hres
    · rintro ⟨ht, ha⟩
      rw [monitorCheckP_timeout_standby now fetch s ht ha]
      exact ⟨rfl, ha⟩
  · rintro ⟨ht, ha⟩
    rw [monitorCheckP_timeout_standby now fetch s ht ha]
  · rintro ⟨ht, ha⟩
    rw [monitorCheckP_timeout_active now fetch s ht ha]
    exact ⟨rfl, rfl⟩
  · intro hn
    by_cases ht : now - s.main_last_heartbeat > failoverTimeout
    · have ha : s.is_active = true := by
        cases hb : s.is_active
        · exact absurd ⟨ht, hb⟩ hn
        · rfl
      rw [monitorCheckP_timeout_active now fetch s ht ha]
    · exact monitorCheckP_fresh_pubs now fetch s ht
  · rintro ⟨_, hres⟩
    constructor
    · by_cases ht2 : now2 - (monitorCheckP now fetch s).1.main_last_heartbeat > failoverTimeout
      · rw [monitorCheckP_timeout_active now2 fetch2 _ ht2 hres]
      · exact monitorCheckP_fresh_pubs now2 fetch2 _ ht2
    · exact monitorCheckP_active_stays now2 fetch2 _ hres

/-- Claim C1 witness: from the initial backup state with
`last_main_heartbeat = 0`, the check at 16 activates and publishes
TAKEOVER, and a second check at 40 publishes nothing more. -/
theorem failover_trigger_spec_witness :
    (monitorCheckP 16 none (backupInitState 0)).1.is_active = true ∧
    (monitorCheckP 16 none (backupInitState 0)).2 = [FailoverAction.takeover] ∧
    (monitorCheckP 40 none (monitorCheckP 16 none (backupInitState 0)).1).2 = [] := by
  obtain ⟨-, hiff, hpub, -, -, honce⟩ :=
    failover_trigger_spec (backupInitState 0) 16 40 none none
  have hact := (hiff.mpr (by decide)).1
  exact ⟨hact, hpub (by decide), (honce ⟨rfl, hact⟩).1⟩

/-- Claim C2: a fresh `role=MAIN` heartbeat only refreshes
`main_last_heartbeat` and marks main ONLINE — in particular it never
reverts an ACTIVE backup to STANDBY — and among all backup operations
(any MQTT message, any monitor iteration, manual activation) the only
one that turns `is_active` back off is the explicit manual
`deactivate()`. -/
theorem no_auto_demotion (s : BackupState) (now : Int) (op : BackupOp)
    (hact : s.is_active = true) (hop : op ≠ BackupOp.deactivate) :
    handleBackupMsg now (Msg.heartbeat (some "MAIN")) s =
      { s with main_last_heartbeat := now, device_status_main := Status.ONLINE } ∧
    (backupStep op s).is_active = true := by
  refine ⟨by simp [handleBackupMsg], ?_⟩
  cases op with
  | mqtt now2 m =>
      rw [backupStep, handleBackupMsg_is_active]; exact hact
  | monitorCheck now2 f =>
      exact monitorCheckP_active_stays now2 f s hact
  | activate => rfl
  | deactivate => exact absurd rfl hop

/-- Claim C2 witness: an activated backup stays ACTIVE across a MAIN
heartbeat received at time 99. -/
theorem no_auto_demotion_witness :
    handleBackupMsg 99 (Msg.heartbeat (some "MAIN")) (activateBackup (backupInitState 0)) =
      { activateBackup (backupInitState 0) with
          main_last_heartbeat := 99, device_status_main := Status.ONLINE } ∧
    (backupStep (BackupOp.mqtt 99 (Msg.heartbeat (some "MAIN")))
        (activateBackup (backupInitState 0))).is_active = true :=
  no_auto_demotion (activateBackup (backupInitState 0)) 99
    (BackupOp.mqtt 99 (Msg.heartbeat (some "MAIN"))) rfl (by decide)

/-- Claim C3 counterexample: stopping a running timer whose deadline is
100 at time 700 leaves `timer_seconds` at 600, not at
`max 0 (100 - 700) = 0` as the claim states: `stop_timer` never
computes the remaining time. -/
theorem stop_timer_claim_cex :
    (stopTimer c3State).timer_seconds = 600 ∧
    (stopTimer c3State).timer_seconds ≠ max 0 ((100 : Int) - 700) := by
  refine ⟨rfl, ?_⟩
  decide

/-- Claim C3 (amended): `stop_timer` clears the deadline and the
running flag, leaving `timer_seconds` unchanged; the remaining value
`max(0, deadline - now)` is stored into `timer_seconds` by the periodic
UI refresh while the timer runs (with a truthy deadline), not by
`stop_timer` itself. -/
theorem stop_timer_spec (s : AppState) (now e : Int)
    (hrun : s.timer_running = true) (hend : s.timer_end_time = some e) (hnz : e ≠ 0) :
    stopTimer s = { s with timer_running := false, timer_end_time := none } ∧
    (updateUiTimer now s).timer_seconds = max 0 (e - now) := by
  refine ⟨rfl, ?_⟩
  simp [updateUiTimer, hend, hrun, hnz]

/-- Claim C3 witness: the amended behaviour on the concrete state of
the counterexample, observed at time 700. -/
theorem stop_timer_spec_witness :
    stopTimer c3State = { c3State with timer_running := false, timer_end_time := none } ∧
    (updateUiTimer 700 c3State).timer_seconds = max 0 ((100 : Int) - 700) :=
  stop_timer_spec c3State 700 100 rfl rfl (by decide)

/-- Claim C4: starting a 600-second timer at `t₀ ≥ 0` sets the
deadline to `t₀ + 600`; the displayed remaining time is 500 at
`t₀ + 100`, 0 at `t₀ + 605`, equals `max 0 (deadline - now)` at every
read instant (hence is never negative), and equals `timer_seconds`
whenever the timer is not running. -/
theorem timer_remaining_spec (s s2 : AppState) (t0 t : Int)
    (hdur : s.timer_seconds = 600) (ht0 : 0 ≤ t0) (hs2 : s2.timer_running = false) :
    remainingDisplay (t0 + 100) (startTimer t0 s) = 500 ∧
    remainingDisplay (t0 + 605) (startTimer t0 s) = 0 ∧
    remainingDisplay t (startTimer t0 s) = max 0 (t0 + 600 - t) ∧
    0 ≤ remainingDisplay t (startTimer t0 s) ∧
    remainingDisplay t s2 = s2.timer_seconds := by
  have key : ∀ u : Int, remainingDisplay u (startTimer t0 s) = max 0 (t0 + 600 - u) := by
    intro u
    have hnz : ¬(t0 + (600 : Int) = 0) := by omega
    simp [remainingDisplay, updateUiTimer, startTimer, hdur, hnz]
  refine ⟨?_, ?_, key t, ?_, ?_⟩
  · rw [key]; omega
  · rw [key]; omega
  · rw [key]; exact le_max_left 0 _
  · cases he : s2.timer_end_time <;> simp [remainingDisplay, updateUiTimer, hs2, he]

/-- Claim C4 witness: the default state's 600-second timer started at
t₀ = 0, read at 100, 605 and 300, and a non-running read. -/
theorem timer_remaining_spec_witness :
    remainingDisplay (0 + 100) (startTimer 0 appInitState) = 500 ∧
    remainingDisplay (0 + 605) (startTimer 0 appInitState) = 0 ∧
    remainingDisplay 300 (startTimer 0 appInitState) = max 0 (0 + 600 - 300) ∧
    0 ≤ remainingDisplay 300 (startTimer 0 appInitState) ∧
    remainingDisplay 300 appInitState = appInitState.timer_seconds :=
  timer_remaining_spec appInitState appInitState 0 300 rfl (by decide) rfl

/-- Claim C5: on a connected controller, `goto_slide n` for `n`
outside `[1, total_slides]` returns failure and leaves the current
slide unchanged, while `n` within bounds succeeds and sets the current
slide to `n`. -/
theorem goto_slide_bounds (total cur n : Int) :
    ((n < 1 ∨ total < n) → ppGotoSlide true total cur n = (false, cur)) ∧
    (1 ≤ n → n ≤ total → ppGotoSlide true total cur n = (true, n)) := by
  constructor
  · intro h
    have hn : ¬(1 ≤ n ∧ n ≤ total) := by omega
    simp [ppGotoSlide, hn]
  · intro h1 h2
    simp [ppGotoSlide, h1, h2]

/-- Claim C5 witness: with 30 slides and current slide 5, requests for
slide 31 and 0 are rejected unchanged, request for slide 7 succeeds. -/
theorem goto_slide_bounds_witness :
    ppGotoSlide true 30 5 31 = (false, 5) ∧
    ppGotoSlide true 30 5 0 = (false, 5) ∧
    ppGotoSlide true 30 5 7 = (true, 7) :=
  ⟨(goto_slide_bounds 30 5 31).1 (by decide),
   (goto_slide_bounds 30 5 0).1 (by decide),
   (goto_slide_bounds 30 5 7).2 (by decide) (by decide)⟩

/-- Claim C6 (code bug): with connected sessions A, B, C where only B's
send fails, the broadcast loop removes B from the list it is iterating,
so the iterator skips C — C stays connected but never receives this
broadcast, contradicting the stated guarantee that a failure on one
session does not affect delivery to the others. -/
theorem broadcast_skips_after_failure :
    broadcastStateUpdate [sessA, sessB, sessC] = ([sessA, sessC], [sessA]) ∧
    sessC ∈ (broadcastStateUpdate [sessA, sessB, sessC]).1 ∧
    sessC ∉ (broadcastStateUpdate [sessA, sessB, sessC]).2 := by
  have h : broadcastStateUpdate [sessA, sessB, sessC] = ([sessA, sessC], [sessA]) := by
    simp [broadcastStateUpdate, broadcastLoop, sessA, sessB, sessC]
  refine ⟨h, ?_, ?_⟩ <;> rw [h] <;> decide

/-- Claim C7 counterexample: a `control next_slide` message is an
inbound replication-bus message, yet applying the handler twice from
the initial state moves the slide to 3 while applying it once moves it
to 2 — the handler is not idempotent on the control topic. -/
theorem replication_idem_cex :
    handleMainMsg true 0 c7Msg (handleMainMsg true 0 c7Msg appInitState) ≠
      handleMainMsg true 0 c7Msg appInitState ∧
    (handleMainMsg true 0 c7Msg appInitState).current_slide = 2 ∧
    (handleMainMsg true 0 c7Msg (handleMainMsg true 0 c7Msg appInitState)).current_slide = 3 := by
  refine ⟨?_, rfl, rfl⟩
  decide

/-- Claim C7 (amended): for every inbound message on the merge-patch
topics — timer, presenter, announcement, heartbeat, or an unhandled
topic — and every fixed receipt time, applying the handler twice in
succession yields exactly the state of applying it once (including the
timer topic, where the deadline is recomputed as
`now + timer_seconds`); control-topic commands are imperative and
excluded, `next_slide`/`previous_slide` not being idempotent. -/
theorem replication_idem (ppt : Bool) (now : Int) (m : Msg) (s : AppState)
    (h : m.isControl = false) :
    handleMainMsg ppt now m (handleMainMsg ppt now m s) = handleMainMsg ppt now m s := by
  cases m with
  | timer seconds running =>
      cases seconds <;> cases running <;> try rfl
      all_goals (rename_i r; cases r <;> rfl)
  | presenter name topic =>
      cases name <;> cases topic <;> rfl
  | announcement message => cases message <;> rfl
  | heartbeat role =>
      by_cases hb : role = some "BACKUP"
      · simp [handleMainMsg, hb]
      · by_cases hm : role = some "MODERATOR"
        · simp [handleMainMsg, hb, hm]
        · simp [handleMainMsg, hb, hm]
  | control command slide => simp [Msg.isControl] at h
  | other => rfl

/-- Claim C7 witness: a timer message (`seconds = 120`,
`running = true`) received at time 50 is idempotent on the initial
state. -/
theorem replication_idem_witness :
    handleMainMsg true 50 (Msg.timer (some 120) (some true))
        (handleMainMsg true 50 (Msg.timer (some 120) (some true)) appInitState) =
      handleMainMsg true 50 (Msg.timer (some 120) (some true)) appInitState :=
  replication_idem true 50 (Msg.timer (some 120) (some true)) appInitState rfl

/-- Claim C8 counterexample: an announcement-topic payload that decodes
successfully but lacks the `message` key (the empty JSON object) leaves
`announcement_visible` false — receipt does not always set visibility
true. -/
theorem announcement_receipt_cex :
    (handleMainMsg true 0 (Msg.announcement none) appInitState).announcement_visible = false := by
  rfl

/-- Claim C8 (amended): receipt of an announcement-topic payload
containing a `message` key sets `announcement_visible` to true (in both
the main and the backup handler, for every message text and state); a
payload without the `message` key leaves the state unchanged. -/
theorem announcement_receipt_spec (ppt : Bool) (now : Int) (v : String)
    (s : AppState) (t : BackupState) :
    (handleMainMsg ppt now (Msg.announcement (some v)) s).announcement_visible = true ∧
    handleMainMsg ppt now (Msg.announcement none) s = s ∧
    (handleBackupMsg now (Msg.announcement (some v)) t).announcement_visible = true ∧
    handleBackupMsg now (Msg.announcement none) t = t :=
  ⟨rfl, rfl, rfl, rfl⟩

/-- Claim C9: the reconciliation pull copies at most the eight listed
fields from the fetched snapshot: for every fetched object it leaves
`device_status` (all three roles), `system_health`,
`main_last_heartbeat`, `timer_end_time` and `connected_clients`
unchanged, keys absent from the fetched object leave their local fields
unchanged, and the monitor applies no pull at all while the backup is
ACTIVE or while main's heartbeat has timed out (main not ONLINE). -/
theorem reconciliation_frame_spec (s : BackupState) (f : FetchedState) (now : Int) :
    (syncFromMain f s).device_status_main = s.device_status_main ∧
    (syncFromMain f s).device_status_backup = s.device_status_backup ∧
    (syncFromMain f s).device_status_moderator = s.device_status_moderator ∧
    (syncFromMain f s).system_health = s.system_health ∧
    (syncFromMain f s).main_last_heartbeat = s.main_last_heartbeat ∧
    (syncFromMain f s).timer_end_time = s.timer_end_time ∧
    (syncFromMain f s).connected_clients = s.connected_clients ∧
    (f.current_presenter = none → (syncFromMain f s).current_presenter = s.current_presenter) ∧
    (f.current_topic = none → (syncFromMain f s).current_topic = s.current_topic) ∧
    (f.timer_seconds = none → (syncFromMain f s).timer_seconds = s.timer_seconds) ∧
    (f.timer_running = none → (syncFromMain f s).timer_running = s.timer_running) ∧
    (f.announcement = none → (syncFromMain f s).announcement = s.announcement) ∧
    (f.announcement_visible = none →
        (syncFromMain f s).announcement_visible = s.announcement_visible) ∧
    (f.current_slide = none → (syncFromMain f s).current_slide = s.current_slide) ∧
    (f.total_slides = none → (syncFromMain f s).total_slides = s.total_slides) ∧
    (s.is_active = true → (monitorCheckP now (some f) s).1 = (monitorCheckP now none s).1) ∧
    (now - s.main_last_heartbeat > failoverTimeout →
        (monitorCheckP now (some f) s).1 = (monitorCheckP now none s).1) := by
  refine ⟨rfl, rfl, rfl, rfl, rfl, rfl, rfl, ?_, ?_, ?_, ?_, ?_, ?_, ?_, ?_, ?_, ?_⟩
  · intro h; simp [syncFromMain, h]
  · intro h; simp [syncFromMain, h]
  · intro h; simp [syncFromMain, h]
  · intro h; simp [syncFromMain, h]
  · intro h; simp [syncFromMain, h]
  · intro h; simp [syncFromMain, h]
  · intro h; simp [syncFromMain, h]
  · intro h; simp [syncFromMain, h]
  · intro ha
    by_cases ht : now - s.main_last_heartbeat > failoverTimeout
    · rw [monitorCheckP_timeout_active now (some f) s ht ha,
        monitorCheckP_timeout_active now none s ht ha]
    · simp [monitorCheckP, ht, ha]
  · intro ht
    cases ha : s.is_active
    · rw [monitorCheckP_timeout_standby now (some f) s ht ha,
        monitorCheckP_timeout_standby now none s ht ha]
    · rw [monitorCheckP_timeout_active now (some f) s ht ha,
        monitorCheckP_timeout_active now none s ht ha]

/-- Claim C9 witness: syncing a concrete snapshot into the initial
backup state preserves `timer_end_time` and the absent-key presenter
field, and an ACTIVE backup ignores the fetched snapshot entirely. -/
theorem reconciliation_frame_spec_witness :
    (syncFromMain c9Fetch (backupInitState 0)).timer_end_time =
      (backupInitState 0).timer_end_time ∧
    (syncFromMain c9Fetch (backupInitState 0)).current_presenter =
      (backupInitState 0).current_presenter ∧
    (monitorCheckP 99 (some c9Fetch) (activateBackup (backupInitState 0))).1 =
      (monitorCheckP 99 none (activateBackup (backupInitState 0))).1 := by
  obtain ⟨-, -, -, -, -, h6, -, h8, -, -, -, -, -, -, -, h16, -⟩ :=
    reconciliation_frame_spec (activateBackup (backupInitState 0)) c9Fetch 99
  obtain ⟨-, -, -, -, -, g6, -, g8, -⟩ :=
    reconciliation_frame_spec (backupInitState 0) c9Fetch 99
  exact ⟨g6, g8 rfl, h16 rfl⟩

/-- Claim C10: a `control`-topic message (any command, any slide
argument) received by the backup while it is in STANDBY
(`is_active = false`) leaves the backup state — in particular
`current_slide` — completely unchanged. -/
theorem standby_ignores_control (now : Int) (cmd : Option String) (sl : Option Int)
    (s : BackupState) (h : s.is_active = false) :
    handleBackupMsg now (Msg.control cmd sl) s = s := by
  cases cmd with
  | none => rfl
  | some c => simp [handleBackupMsg, h]

/-- Claim C10 witness: a `next_slide` command arriving at the initial
(STANDBY) backup state changes nothing. -/
theorem standby_ignores_control_witness :
    handleBackupMsg 0 (Msg.control (some "next_slide") none) (backupInitState 0) =
      backupInitState 0 :=
  standby_ignores_control 0 (some "next_slide") none (backupInitState 0) rfl

end ConfSys
